import Mathlib

/-! Verification of the vessel-tracker program.

A shallow embedding of the geodesy and orchestration functions of
`main.py` and `vessel_data_script.py`: machine floats are modelled by real
numbers, `math.atan2 y x` by the argument of the complex number `x + y*i`
(both have range `(-pi, pi]` and send the origin to `0`), and a pandas
DataFrame of vessel rows by a list of records (or by the one-row error
frame built in the `except` branch of `get_vessel_data`). -/

namespace VesselTracker

/-- Python `math.radians`: degrees to radians. -/
noncomputable def radians (x : ℝ) : ℝ := x * Real.pi / 180

/-- Python `math.degrees`: radians to degrees. -/
noncomputable def degrees (x : ℝ) : ℝ := x * 180 / Real.pi

/-- Python `math.atan2 y x`: the angle of the point `(x, y)`, in `(-pi, pi]`,
with `atan2 0 0 = 0` as in Python. -/
noncomputable def atan2 (y x : ℝ) : ℝ := Complex.arg ⟨x, y⟩

/-- One row of the frame returned by `get_vessel_data`: the columns
`MMSI, NAME, LATITUDE, LONGITUDE, COG, SOG, VESSEL_TYPE` selected from the
API response. -/
structure Obs where
  mmsi : Nat
  name : String
  latitude : ℝ
  longitude : ℝ
  cog : ℝ
  sog : ℝ
  vesselType : String

/-- Function `predict_position` from `main.py`: dead-reckoning projection of the
position reached after `time_minutes` at the given course and speed. -/
noncomputable def predict_position (latitude longitude course speed time_minutes : ℝ) :
    ℝ × ℝ :=
  let lat := radians latitude
  let lon := radians longitude
  let crs := radians course
  let distance_nm := speed / 60 * time_minutes
  let earth_radius_nm : ℝ := 3440.065
  let predicted_latitude :=
    Real.arcsin (Real.sin lat * Real.cos (distance_nm / earth_radius_nm) +
      Real.cos lat * Real.sin (distance_nm / earth_radius_nm) * Real.cos crs)
  let predicted_longitude := lon + atan2
    (Real.sin crs * Real.sin (distance_nm / earth_radius_nm) * Real.cos lat)
    (Real.cos (distance_nm / earth_radius_nm) - Real.sin lat * Real.sin predicted_latitude)
  (degrees predicted_latitude, degrees predicted_longitude)

/-- The intermediate value `a` computed inside `haversine` in `main.py`. -/
noncomputable def hav_a (lat1 lon1 lat2 lon2 : ℝ) : ℝ :=
  Real.sin (radians (lat2 - lat1) / 2) ^ 2 +
    Real.cos (radians lat1) * Real.cos (radians lat2) *
      Real.sin (radians (lon2 - lon1) / 2) ^ 2

/-- Function `haversine` from `main.py`: great-circle distance in kilometres with
Earth radius 6371 km. -/
noncomputable def haversine (lat1 lon1 lat2 lon2 : ℝ) : ℝ :=
  2 * 6371 * atan2 (Real.sqrt (hav_a lat1 lon1 lat2 lon2))
    (Real.sqrt (1 - hav_a lat1 lon1 lat2 lon2))

/-- Function `is_point_within_circle` from `main.py`. -/
def is_point_within_circle (center_lat center_lon radius_km point_lat point_lon : ℝ) :
    Prop :=
  haversine center_lat center_lon point_lat point_lon ≤ radius_km

/-- The `predicted_latitudes` list built row by row inside
`predict_future_positions`. -/
noncomputable def predicted_latitudes (rows : List Obs) (time_minutes : ℝ) : List ℝ :=
  rows.map fun r => (predict_position r.latitude r.longitude r.cog r.sog time_minutes).1

/-- The `predicted_longitudes` list built row by row inside
`predict_future_positions`. -/
noncomputable def predicted_longitudes (rows : List Obs) (time_minutes : ℝ) : List ℝ :=
  rows.map fun r => (predict_position r.latitude r.longitude r.cog r.sog time_minutes).2

/-- A row of the frame after `predict_future_positions`: the original row
plus the columns `PREDICTED_LATITUDE` and `PREDICTED_LONGITUDE`. -/
structure PredRecord where
  base : Obs
  predictedLatitude : ℝ
  predictedLongitude : ℝ

/-- Function `predict_future_positions` from `main.py`: the two predicted columns
are built in row order and attached to the frame positionally. -/
noncomputable def predict_future_positions (rows : List Obs) (time_minutes : ℝ) :
    List PredRecord :=
  ((rows.zip ((predicted_latitudes rows time_minutes).zip
      (predicted_longitudes rows time_minutes))).map fun p => ⟨p.1, p.2.1, p.2.2⟩)

/-- A row after the assignments `predicted_df['NEW_LATITUDE'] = ...` and
`predicted_df['NEW_LONGITUDE'] = ...`. -/
structure MergedRecord where
  pred : PredRecord
  newLatitude : ℝ
  newLongitude : ℝ

/-- The column assignments `vessel_data['NEW_LATITUDE'] = new_vessel_data['LATITUDE']`
(and longitude) in `main.py` and `vessel_data_script.py`: pandas aligns the
two fresh RangeIndex frames row by row, so row `i` of the predictions
receives the coordinates of row `i` of the second fetch. The join is
positional; the MMSI column plays no part in it. Frames of equal length
are modelled. -/
def attach_new_positions (preds : List PredRecord) (news : List Obs) : List MergedRecord :=
  (preds.zip news).map fun p => ⟨p.1, p.2.latitude, p.2.longitude⟩

/-- A row after `check_within_radius`: the merged row plus the
`WITHIN_RADIUS` column. -/
structure ClassifiedRecord where
  merged : MergedRecord
  withinRadius : Prop

/-- Function `check_within_radius` from `main.py`. -/
def check_within_radius (rows : List MergedRecord) (radius_km : ℝ) : List ClassifiedRecord :=
  rows.map fun r =>
    ⟨r, is_point_within_circle r.pred.predictedLatitude r.pred.predictedLongitude
      radius_km r.newLatitude r.newLongitude⟩

/-- The outcome of the HTTP POST inside `get_vessel_data`: either a JSON
payload of rows, or a raised `requests.exceptions.RequestException`
(transport, timeout or status failure). -/
inductive FetchOutcome where
  | success (rows : List Obs)
  | failure (message : String)

/-- A frame as `get_vessel_data` can return one: either the vessel rows
with the seven selected columns, or the one-row one-column error frame
built in the `except` branch. -/
inductive VesselFrame where
  | records (rows : List Obs)
  | errorFrame (message : String)

/-- Function `get_vessel_data` from `main.py`, as a function of the transport
outcome of the POST request. -/
def get_vessel_data (outcome : FetchOutcome) : VesselFrame :=
  match outcome with
  | .success rows => .records rows
  | .failure msg => .errorFrame msg

/-- pandas `DataFrame.empty`: true iff the frame has no rows (every frame
here has at least one column, and the error frame has exactly one row). -/
def VesselFrame.isEmpty : VesselFrame → Bool
  | .records rows => rows.isEmpty
  | .errorFrame _ => false

/-- The branch test of the orchestrators (`if result.empty:` in `main.py`,
`if not vessel_data.empty:` in `vessel_data_script.py`): prediction is
attempted exactly when the frame is non-empty. -/
def proceeds_to_prediction (df : VesselFrame) : Bool := !df.isEmpty

/-- Access to the vessel columns (`row['LATITUDE']` and friends) needed by
`predict_future_positions`: present on a records frame, a `KeyError`
(modelled as `none`) on the error frame. -/
def VesselFrame.vesselRows : VesselFrame → Option (List Obs)
  | .records rows => some rows
  | .errorFrame _ => none

/-- A vessel row with `SOG = -1`, as in the negative-speed scenario. -/
noncomputable def negSpeedObs : Obs := ⟨333333, "", 5, 6, 45, -1, ""⟩

/-- A vessel row with valid fields accompanying `negSpeedObs`. -/
noncomputable def validObs : Obs := ⟨444444, "", 7, 8, 90, 12, ""⟩

/-- Vessel 111111 as the first fetch reports it. -/
noncomputable def firstFetchA : Obs := ⟨111111, "", 10, 20, 90, 10, ""⟩

/-- Vessel 222222 as the first fetch reports it. -/
noncomputable def firstFetchB : Obs := ⟨222222, "", 11, 21, 180, 12, ""⟩

/-- Vessel 222222 as the second fetch re-observes it. -/
noncomputable def secondFetchB : Obs := ⟨222222, "", 11.5, 21.5, 180, 12, ""⟩

/-- Vessel 111111 as the second fetch re-observes it. -/
noncomputable def secondFetchA : Obs := ⟨111111, "", 10.5, 20.5, 90, 10, ""⟩

/-! Helper lemmas. -/

theorem degrees_radians (x : ℝ) : degrees (radians x) = x := by
  rw [degrees, radians]
  field_simp

theorem radians_sub (x y : ℝ) : radians (x - y) = radians x - radians y := by
  rw [radians, radians, radians]; ring

theorem atan2_cos_sin {θ : ℝ} (h : θ ∈ Set.Ioc (-Real.pi) Real.pi) :
    atan2 (Real.sin θ) (Real.cos θ) = θ := by
  rw [atan2, Complex.mk_eq_add_mul_I, Complex.ofReal_cos, Complex.ofReal_sin]
  exact Complex.arg_cos_add_sin_mul_I h

theorem atan2_zero_of_nonneg {x : ℝ} (hx : 0 ≤ x) : atan2 0 x = 0 := by
  rw [atan2]
  have hxc : (⟨x, 0⟩ : ℂ) = (x : ℂ) := by
    apply Complex.ext <;> simp
  rw [hxc]
  exact Complex.arg_ofReal_of_nonneg hx

theorem atan2_mem_Ioc (y x : ℝ) : -Real.pi < atan2 y x ∧ atan2 y x ≤ Real.pi :=
  ⟨Complex.neg_pi_lt_arg _, Complex.arg_le_pi _⟩

theorem predict_future_positions_eq_map (rows : List Obs) (t : ℝ) :
    predict_future_positions rows t = rows.map fun r =>
      ⟨r, (predict_position r.latitude r.longitude r.cog r.sog t).1,
        (predict_position r.latitude r.longitude r.cog r.sog t).2⟩ := by
  induction rows with
  | nil => rfl
  | cons r rs ih =>
    simp only [predict_future_positions, predicted_latitudes, predicted_longitudes,
      List.map_cons, List.zip_cons_cons] at ih ⊢
    simp only [List.map_cons, ih]

theorem sin_sq_radians_neg (x : ℝ) :
    Real.sin (radians (-x) / 2) ^ 2 = Real.sin (radians x / 2) ^ 2 := by
  have h : radians (-x) = -radians x := by rw [radians, radians]; ring
  rw [h, neg_div, Real.sin_neg, neg_sq]

/-! Claim theorems. -/

/-- Claim C6: `is_point_within_circle` holds iff the haversine distance
from the centre to the point is at most the radius, and a point exactly at
distance equal to the radius counts as inside (boundary inclusive). -/
theorem within_circle_iff_distance_le (clat clon r plat plon : ℝ) :
    (is_point_within_circle clat clon r plat plon ↔
      haversine clat clon plat plon ≤ r) ∧
      is_point_within_circle clat clon (haversine clat clon plat plon) plat plon :=
  ⟨Iff.rfl, le_refl _⟩

/-- Claim C7: the haversine distance is symmetric in its two points and is
zero between a point and itself. -/
theorem haversine_symm_and_self_zero (lat1 lon1 lat2 lon2 : ℝ) :
    haversine lat1 lon1 lat2 lon2 = haversine lat2 lon2 lat1 lon1 ∧
      haversine lat1 lon1 lat1 lon1 = 0 := by
  constructor
  · have ha : hav_a lat1 lon1 lat2 lon2 = hav_a lat2 lon2 lat1 lon1 := by
      rw [hav_a, hav_a]
      have h1 : lat1 - lat2 = -(lat2 - lat1) := by ring
      have h2 : lon1 - lon2 = -(lon2 - lon1) := by ring
      rw [h1, h2, sin_sq_radians_neg, sin_sq_radians_neg]
      ring
    rw [haversine, haversine, ha]
  · have ha : hav_a lat1 lon1 lat1 lon1 = 0 := by
      rw [hav_a]
      simp [radians]
    rw [haversine, ha]
    rw [Real.sqrt_zero, sub_zero, Real.sqrt_one, atan2_zero_of_nonneg zero_le_one,
      mul_zero]

/-- Claim C9: `predict_future_positions` is an order-preserving per-record
map: the output is the input list in order, each record's predicted fields
depend only on that record's own fields, and every pre-existing field is
left unchanged in the attached `base` record. -/
theorem predict_future_positions_is_pointwise_map (rows : List Obs) (t : ℝ) :
    predict_future_positions rows t = (rows.map fun r =>
      ⟨r, (predict_position r.latitude r.longitude r.cog r.sog t).1,
        (predict_position r.latitude r.longitude r.cog r.sog t).2⟩) ∧
      (predict_future_positions rows t).map PredRecord.base = rows := by
  refine ⟨predict_future_positions_eq_map rows t, ?_⟩
  rw [predict_future_positions_eq_map, List.map_map]
  exact List.map_id rows

/-- Claim C10: the predicted latitude is always in [-90, 90], for any real
inputs: it is 180/pi times an arcsine value in [-pi/2, pi/2]. -/
theorem predicted_latitude_in_range (lat lon course speed minutes : ℝ) :
    -90 ≤ (predict_position lat lon course speed minutes).1 ∧
      (predict_position lat lon course speed minutes).1 ≤ 90 := by
  have hπ := Real.pi_pos
  simp only [predict_position, degrees]
  constructor
  · rw [le_div_iff₀ hπ]
    have h := Real.neg_pi_div_two_le_arcsin
      (Real.sin (radians lat) * Real.cos (speed / 60 * minutes / 3440.065) +
        Real.cos (radians lat) * Real.sin (speed / 60 * minutes / 3440.065) *
          Real.cos (radians course))
    nlinarith
  · rw [div_le_iff₀ hπ]
    have h := Real.arcsin_le_pi_div_two
      (Real.sin (radians lat) * Real.cos (speed / 60 * minutes / 3440.065) +
        Real.cos (radians lat) * Real.sin (speed / 60 * minutes / 3440.065) *
          Real.cos (radians course))
    nlinarith

/-- Claim C5: with speed = 0 or minutes = 0 the distance term vanishes and
`predict_position` returns exactly the input position, for any latitude in
[-90, 90]. -/
theorem predict_position_identity_of_zero (lat lon course speed minutes : ℝ)
    (hlat1 : -90 ≤ lat) (hlat2 : lat ≤ 90) (hz : speed = 0 ∨ minutes = 0) :
    predict_position lat lon course speed minutes = (lat, lon) := by
  have hπ := Real.pi_pos
  have hd : speed / 60 * minutes = 0 := by
    rcases hz with h | h <;> simp [h]
  have hφ1 : -(Real.pi / 2) ≤ radians lat := by
    rw [radians]
    nlinarith [mul_nonneg (by linarith : (0:ℝ) ≤ lat + 90) hπ.le]
  have hφ2 : radians lat ≤ Real.pi / 2 := by
    rw [radians]
    nlinarith [mul_nonneg (by linarith : (0:ℝ) ≤ 90 - lat) hπ.le]
  have hsin : Real.sin (radians lat) * Real.sin (radians lat) ≤ 1 := by
    nlinarith [Real.neg_one_le_sin (radians lat), Real.sin_le_one (radians lat)]
  simp only [predict_position, hd, zero_div, Real.cos_zero, Real.sin_zero, mul_one,
    mul_zero, zero_mul, add_zero, sub_zero]
  rw [Real.arcsin_sin hφ1 hφ2]
  rw [atan2_zero_of_nonneg (by linarith : (0:ℝ) ≤ 1 - Real.sin (radians lat) *
    Real.sin (radians lat))]
  rw [add_zero, degrees_radians, degrees_radians]

/-- Witness for claim C5 at the concrete input (45, 30, 260, speed 0,
10 minutes). -/
theorem predict_position_identity_of_zero_witness :
    (-90 ≤ (45 : ℝ) ∧ (45 : ℝ) ≤ 90 ∧ ((0 : ℝ) = 0 ∨ (10 : ℝ) = 0)) ∧
      predict_position 45 30 260 0 10 = (45, 30) :=
  ⟨⟨by norm_num, by norm_num, Or.inl rfl⟩,
    predict_position_identity_of_zero 45 30 260 0 10 (by norm_num) (by norm_num)
      (Or.inl rfl)⟩

theorem sin_sq_half_arg (x : ℝ) : Real.sin (x / 2) ^ 2 = 1 / 2 - Real.cos x / 2 := by
  have h := Real.sin_sq_eq_half_sub (x / 2)
  have h2 : 2 * (x / 2) = x := by ring
  rw [h2] at h
  exact h

/-- Claim C8: for all real inputs the value `a` of `haversine` lies in
[0, 1], hence both `sqrt` arguments `a` and `1 - a` lie in [0, 1] and the
square roots are within their domain. -/
theorem hav_a_and_complement_in_unit_interval (lat1 lon1 lat2 lon2 : ℝ) :
    (0 ≤ hav_a lat1 lon1 lat2 lon2 ∧ hav_a lat1 lon1 lat2 lon2 ≤ 1) ∧
      (0 ≤ 1 - hav_a lat1 lon1 lat2 lon2 ∧ 1 - hav_a lat1 lon1 lat2 lon2 ≤ 1) := by
  have key : hav_a lat1 lon1 lat2 lon2 =
      (1 - (Real.sin (radians lat1) * Real.sin (radians lat2) +
        Real.cos (radians lat1) * Real.cos (radians lat2) *
          Real.cos (radians (lon2 - lon1)))) / 2 := by
    rw [hav_a, radians_sub lat2 lat1, sin_sq_half_arg, sin_sq_half_arg, Real.cos_sub]
    ring
  have p1 := Real.sin_sq_add_cos_sq (radians lat1)
  have p2 := Real.sin_sq_add_cos_sq (radians lat2)
  have ht1 := Real.cos_le_one (radians (lon2 - lon1))
  have ht2 := Real.neg_one_le_cos (radians (lon2 - lon1))
  have k1 : 0 ≤ (1 - Real.cos (radians (lon2 - lon1))) *
      (Real.cos (radians lat1) + Real.cos (radians lat2)) ^ 2 :=
    mul_nonneg (by linarith) (sq_nonneg _)
  have k2 : 0 ≤ (1 + Real.cos (radians (lon2 - lon1))) *
      (Real.cos (radians lat1) - Real.cos (radians lat2)) ^ 2 :=
    mul_nonneg (by linarith) (sq_nonneg _)
  have k3 : 0 ≤ (1 - Real.cos (radians (lon2 - lon1))) *
      (Real.cos (radians lat1) - Real.cos (radians lat2)) ^ 2 :=
    mul_nonneg (by linarith) (sq_nonneg _)
  have k4 : 0 ≤ (1 + Real.cos (radians (lon2 - lon1))) *
      (Real.cos (radians lat1) + Real.cos (radians lat2)) ^ 2 :=
    mul_nonneg (by linarith) (sq_nonneg _)
  have s1 := sq_nonneg (Real.sin (radians lat1) - Real.sin (radians lat2))
  have s2 := sq_nonneg (Real.sin (radians lat1) + Real.sin (radians lat2))
  constructor
  · constructor
    · rw [key]; nlinarith
    · rw [key]; nlinarith
  · constructor
    · rw [key]; nlinarith
    · rw [key]; nlinarith

/-- Claim C2 counterexample: the record with `SOG = -1` is not excluded
from the predicted batch; both rows, the invalid and the valid one, come
out with predicted positions attached, in order. -/
theorem negative_speed_record_not_excluded :
    (predict_future_positions [negSpeedObs, validObs] 10).length = 2 ∧
      ((predict_future_positions [negSpeedObs, validObs] 10).map
        fun p => p.base.mmsi) = [333333, 444444] := by
  rw [predict_future_positions_eq_map]
  simp [negSpeedObs, validObs]

/-- Claim C2 amended: `predict_position` performs no input validation, so a
record with negative speed is processed like any other; no record of the
batch is excluded and every input row reappears unchanged in order. -/
theorem predict_batch_no_validation (r : Obs) (rows : List Obs) (t : ℝ)
    (h : r.sog < 0) :
    (predict_future_positions (r :: rows) t).length = rows.length + 1 ∧
      (predict_future_positions (r :: rows) t).map PredRecord.base = r :: rows := by
  rw [predict_future_positions_eq_map]
  constructor
  · simp
  · rw [List.map_map]
    exact List.map_id (r :: rows)

/-- Witness for the amended claim C2 at the concrete negative-speed row. -/
theorem predict_batch_no_validation_witness :
    negSpeedObs.sog < 0 ∧
      ((predict_future_positions [negSpeedObs] 10).length = 1 ∧
        (predict_future_positions [negSpeedObs] 10).map PredRecord.base =
          [negSpeedObs]) :=
  ⟨by norm_num [negSpeedObs],
    predict_batch_no_validation negSpeedObs [] 10 (by norm_num [negSpeedObs])⟩

/-- Claim C1: with the second fetch returning the same two vessels in the
opposite order, the positional join of `NEW_LATITUDE` attaches vessel
222222's observed coordinates to vessel 111111's prediction (and vice
versa): the pairs fed to classification do not share a vessel id. -/
theorem pairing_is_positional_not_by_id :
    ((attach_new_positions (predict_future_positions [firstFetchA, firstFetchB] 10)
        [secondFetchB, secondFetchA]).map
        fun m => (m.pred.base.mmsi, m.newLatitude)) =
      [(111111, (11.5 : ℝ)), (222222, (10.5 : ℝ))] ∧
      secondFetchB.mmsi = 222222 ∧ secondFetchB.latitude = 11.5 ∧
      secondFetchA.mmsi = 111111 ∧ secondFetchA.latitude = 10.5 := by
  refine ⟨?_, rfl, rfl, rfl, rfl⟩
  rw [predict_future_positions_eq_map]
  simp [attach_new_positions, firstFetchA, firstFetchB, secondFetchB, secondFetchA]

/-- Claim C3: a transport failure makes `get_vessel_data` return the
one-row error frame, which is not empty, so the orchestrator branch test
proceeds to prediction on it; and the frame carries no vessel columns for
prediction to read (a `KeyError`), rather than an empty sequence of
observations. -/
theorem fetch_failure_frame_not_empty (msg : String) :
    (get_vessel_data (FetchOutcome.failure msg)).isEmpty = false ∧
      proceeds_to_prediction (get_vessel_data (FetchOutcome.failure msg)) = true ∧
      (get_vessel_data (FetchOutcome.failure msg)).vesselRows = none :=
  ⟨rfl, rfl, rfl⟩

theorem degrees_add_atan2_bounds (L A : ℝ) (hL1 : -Real.pi ≤ L) (hL2 : L ≤ Real.pi)
    (hA1 : -Real.pi < A) (hA2 : A ≤ Real.pi) :
    -360 < degrees (L + A) ∧ degrees (L + A) ≤ 360 := by
  have hπ := Real.pi_pos
  constructor
  · rw [degrees, lt_div_iff₀ hπ]
    nlinarith
  · rw [degrees, div_le_iff₀ hπ]
    nlinarith

/-- Claim C4 counterexample: a vessel at latitude 0, longitude 180, heading
due east at 60 knots for 60 minutes gets a predicted longitude strictly
greater than 180: the raw atan2-based longitude is returned with no
normalization into [-180, 180]. -/
theorem predicted_longitude_exceeds_180 :
    180 < (predict_position 0 180 90 60 60).2 := by
  have hπ := Real.pi_pos
  have h0 : radians 0 = 0 := by simp [radians]
  have h90 : radians 90 = Real.pi / 2 := by rw [radians]; ring
  have h180 : radians 180 = Real.pi := by rw [radians]; ring
  have hδ1 : (0 : ℝ) < 60 / 60 * 60 / 3440.065 := by norm_num
  have hδ2 : (60 : ℝ) / 60 * 60 / 3440.065 ≤ Real.pi := by
    nlinarith [Real.pi_gt_three]
  have hatan : atan2 (Real.sin (60 / 60 * 60 / 3440.065))
      (Real.cos (60 / 60 * 60 / 3440.065)) = 60 / 60 * 60 / 3440.065 :=
    atan2_cos_sin ⟨by linarith, hδ2⟩
  simp only [predict_position, h0, h90, h180, Real.sin_zero, Real.cos_zero,
    Real.sin_pi_div_two, Real.cos_pi_div_two, zero_mul, one_mul, mul_zero, mul_one,
    add_zero, zero_add, sub_zero, Real.arcsin_zero]
  rw [hatan, degrees, lt_div_iff₀ hπ]
  nlinarith

/-- Claim C4 amended: without normalization, the predicted longitude is
only guaranteed to be the input longitude plus an atan2 offset in
(-180, 180] degrees; for an input longitude in [-180, 180] it lies in
(-360, 360]. -/
theorem predicted_longitude_range (lat lon course speed minutes : ℝ)
    (h1 : -180 ≤ lon) (h2 : lon ≤ 180) :
    -360 < (predict_position lat lon course speed minutes).2 ∧
      (predict_position lat lon course speed minutes).2 ≤ 360 := by
  have hπ := Real.pi_pos
  have hb1 : -Real.pi ≤ radians lon := by
    rw [radians]
    nlinarith [mul_nonneg (by linarith : (0:ℝ) ≤ lon + 180) hπ.le]
  have hb2 : radians lon ≤ Real.pi := by
    rw [radians]
    nlinarith [mul_nonneg (by linarith : (0:ℝ) ≤ 180 - lon) hπ.le]
  simp only [predict_position]
  exact degrees_add_atan2_bounds (radians lon) _ hb1 hb2
    (atan2_mem_Ioc _ _).1 (atan2_mem_Ioc _ _).2

/-- Witness for the amended claim C4 at a concrete input. -/
theorem predicted_longitude_range_witness :
    (-180 ≤ (0 : ℝ) ∧ (0 : ℝ) ≤ 180) ∧
      (-360 < (predict_position 0 0 0 0 0).2 ∧ (predict_position 0 0 0 0 0).2 ≤ 360) :=
  ⟨⟨by norm_num, by norm_num⟩,
    predicted_longitude_range 0 0 0 0 0 (by norm_num) (by norm_num)⟩

end VesselTracker
